import Mathlib

/-
Verification of the heroku_rs client library core (framework/response,
framework/auth) and representative endpoint builders (addons, builds),
shallowly embedded in Lean 4.

JSON bodies are modelled by an inductive value type together with a small
parser that follows serde_json on the fragment the library exchanges:
in particular an empty input fails with an EOF error, and input left over
after a complete value is a trailing-characters error, exactly as
serde_json::from_slice behaves.
-/

namespace HerokuRs

/-- JSON values as produced by serde_json for the payloads this client
exchanges (numbers restricted to integers, which is all the error envelope
and the modelled endpoints use). -/
inductive Json where
  | null : Json
  | bool (b : Bool) : Json
  | num (n : Int) : Json
  | str (s : String) : Json
  | arr (xs : List Json) : Json
  | obj (fs : List (String × Json)) : Json

/-- Whitespace characters accepted between JSON tokens. -/
def isWs (c : Char) : Bool :=
  c == ' ' || c == '\n' || c == '\t' || c == '\r'

/-- Drop leading whitespace. -/
def skipWs : List Char → List Char
  | [] => []
  | c :: cs => if isWs c then skipWs cs else c :: cs

/-- Scan a JSON string body after the opening quote; supports the common
escapes the library encounters. -/
def scanStr (acc : List Char) : List Char → Except String (String × List Char)
  | [] => .error "EOF while parsing a string"
  | '"' :: rest => .ok (String.mk acc.reverse, rest)
  | '\\' :: '"' :: rest => scanStr ('"' :: acc) rest
  | '\\' :: '\\' :: rest => scanStr ('\\' :: acc) rest
  | '\\' :: '/' :: rest => scanStr ('/' :: acc) rest
  | '\\' :: 'n' :: rest => scanStr ('\n' :: acc) rest
  | '\\' :: 't' :: rest => scanStr ('\t' :: acc) rest
  | '\\' :: 'r' :: rest => scanStr ('\r' :: acc) rest
  | '\\' :: _ :: _ => .error "unsupported escape"
  | c :: rest => scanStr (c :: acc) rest

/-- Take a maximal run of decimal digits. -/
def takeDigits : List Char → (List Char × List Char)
  | [] => ([], [])
  | c :: cs =>
    if c.isDigit then
      let p := takeDigits cs
      (c :: p.1, p.2)
    else ([], c :: cs)

/-- Decimal digits to a natural number. -/
def digitsToNat (ds : List Char) : Nat :=
  ds.foldl (fun acc c => acc * 10 + (c.toNat - '0'.toNat)) 0

/-- Parse an integer JSON number (the only numeric shape this model needs). -/
def scanNum (cs : List Char) : Except String (Json × List Char) :=
  match cs with
  | '-' :: rest =>
    (match takeDigits rest with
     | ([], _) => .error "invalid number"
     | (ds, rest2) => .ok (.num (-(digitsToNat ds : Int)), rest2))
  | _ =>
    match takeDigits cs with
    | ([], _) => .error "expected value"
    | (ds, rest2) => .ok (.num (digitsToNat ds), rest2)

mutual

/-- Parse one JSON value, fuel-bounded. -/
def parseValue : Nat → List Char → Except String (Json × List Char)
  | 0, _ => .error "fuel exhausted"
  | fuel + 1, cs =>
    match skipWs cs with
    | [] => .error "EOF while parsing a value"
    | 'n' :: 'u' :: 'l' :: 'l' :: rest => .ok (.null, rest)
    | 't' :: 'r' :: 'u' :: 'e' :: rest => .ok (.bool true, rest)
    | 'f' :: 'a' :: 'l' :: 's' :: 'e' :: rest => .ok (.bool false, rest)
    | '"' :: rest =>
      (match scanStr [] rest with
       | .error e => .error e
       | .ok (s, rest2) => .ok (.str s, rest2))
    | '[' :: rest =>
      (match skipWs rest with
       | ']' :: rest2 => .ok (.arr [], rest2)
       | rest2 => parseElems fuel rest2 [])
    | '\x7b' :: rest =>
      (match skipWs rest with
       | '\x7d' :: rest2 => .ok (.obj [], rest2)
       | rest2 => parseMembers fuel rest2 [])
    | c :: rest => scanNum (c :: rest)

/-- Parse the remaining elements of a non-empty JSON array. -/
def parseElems : Nat → List Char → List Json → Except String (Json × List Char)
  | 0, _, _ => .error "fuel exhausted"
  | fuel + 1, cs, acc =>
    match parseValue fuel cs with
    | .error e => .error e
    | .ok (v, rest) =>
      match skipWs rest with
      | ',' :: rest2 => parseElems fuel rest2 (acc ++ [v])
      | ']' :: rest2 => .ok (.arr (acc ++ [v]), rest2)
      | _ => .error "expected comma or end of array"

/-- Parse the remaining members of a non-empty JSON object. -/
def parseMembers : Nat → List Char → List (String × Json) → Except String (Json × List Char)
  | 0, _, _ => .error "fuel exhausted"
  | fuel + 1, cs, acc =>
    match skipWs cs with
    | '"' :: rest =>
      (match scanStr [] rest with
       | .error e => .error e
       | .ok (k, rest2) =>
         match skipWs rest2 with
         | ':' :: rest3 =>
           (match parseValue fuel rest3 with
            | .error e => .error e
            | .ok (v, rest4) =>
              match skipWs rest4 with
              | ',' :: rest5 => parseMembers fuel rest5 (acc ++ [(k, v)])
              | '\x7d' :: rest5 => .ok (.obj (acc ++ [(k, v)]), rest5)
              | _ => .error "expected comma or end of object")
         | _ => .error "expected colon")
    | _ => .error "key must be a string"

end

/-- Parse a whole body as one JSON value, as serde_json::from_slice does:
an empty body is an EOF error, and leftover non-whitespace input is a
trailing-characters error. -/
def parseJson (s : String) : Except String Json :=
  match parseValue (s.length + 2) s.data with
  | .error e => .error e
  | .ok (v, rest) =>
    match skipWs rest with
    | [] => .ok v
    | _ => .error "trailing characters"

/-- An HTTP response as seen by the classifier: a status code and a body.
Models reqwest::blocking::Response at the interface match_response uses. -/
structure Response where
  status : Nat
  body : String
deriving DecidableEq, Repr

/-- Success range of HTTP status codes, as http::StatusCode::is_success
(200 through 299). -/
def isSuccess (status : Nat) : Bool :=
  200 ≤ status && status < 300

/-- Modelled from the spec: the structured error envelope HerokuApiError
(framework/response/error.rs is absent from the sources; section 6 of the
spec gives its fields: error id, human-readable message, URL). -/
structure HerokuApiError where
  id : String
  message : String
  url : Option String
deriving DecidableEq, Repr

/-- Modelled from the spec: the Default value of the error envelope, used
by unwrap_or_default in match_response; all fields empty. -/
def HerokuApiError.defaultError : HerokuApiError :=
  { id := "", message := "", url := none }

/-- Derived serde Deserialize for the error envelope: an object with
required string fields id and message, and an optional nullable url.
Unknown fields are ignored, matching the serde default. -/
def fromJsonHerokuApiError : Json → Except String HerokuApiError
  | .obj fs =>
    (match fs.lookup "id", fs.lookup "message" with
     | some (.str i), some (.str m) =>
       (match fs.lookup "url" with
        | none => .ok { id := i, message := m, url := none }
        | some .null => .ok { id := i, message := m, url := none }
        | some (.str u) => .ok { id := i, message := m, url := some u }
        | some _ => .error "invalid type for field url")
     | _, _ => .error "missing field")
  | _ => .error "invalid type: expected an object"

/-- Modelled from the spec: HerokuApiFailure (also declared in the absent
error.rs), with the two variants match_response constructs: Invalid wraps
a transport or deserialization error, Error carries the HTTP status and
the parsed error envelope. -/
inductive HerokuApiFailure where
  | Invalid (e : String) : HerokuApiFailure
  | Error (status : Nat) (errors : HerokuApiError) : HerokuApiFailure
deriving DecidableEq, Repr

/-- The empty marker struct of framework/response/mod.rs, for endpoints
whose success body carries no data. -/
structure Empty where
deriving DecidableEq, Repr

/-- Derived serde Deserialize for the zero-field struct Empty: any JSON
object deserializes (unknown fields ignored, the serde default) and the
empty array deserializes through visit_seq; a non-empty array leaves
trailing elements and fails, as does any other value. -/
def fromJsonEmpty : Json → Except String Empty
  | .obj _ => .ok Empty.mk
  | .arr [] => .ok Empty.mk
  | .arr (_ :: _) => .error "trailing elements in sequence"
  | _ => .error "invalid type: expected an object or an empty array"

/-- reqwest Response::json::<T>() : read the body and run serde_json on it,
then the Deserialize instance of T. -/
def Response.json {T : Type} (fromJsonT : Json → Except String T) (r : Response) :
    Except String T :=
  match parseJson r.body with
  | .error e => .error e
  | .ok v => fromJsonT v

/-- Result::unwrap_or_default on the parsed error envelope. -/
def unwrapOrDefault : Except String HerokuApiError → HerokuApiError
  | .ok e => e
  | .error _ => HerokuApiError.defaultError

/-- match_response from framework/response/mod.rs: on a success status,
deserialize the body as T (a failure becomes HerokuApiFailure.Invalid);
otherwise parse the error envelope, defaulting on failure, and return
HerokuApiFailure.Error with the original status. -/
def match_response {T : Type} (fromJsonT : Json → Except String T)
    (api_response : Response) : Except HerokuApiFailure T :=
  if isSuccess api_response.status then
    match Response.json fromJsonT api_response with
    | .ok response => .ok response
    | .error e => .error (.Invalid e)
  else
    let errors := unwrapOrDefault (Response.json fromJsonHerokuApiError api_response)
    .error (.Error api_response.status errors)

/-- match_raw_response from framework/response/mod.rs: on a success status
the raw response is returned unchanged; otherwise the same error path as
match_response. -/
def match_raw_response (api_response : Response) : Except HerokuApiFailure Response :=
  if isSuccess api_response.status then
    .ok api_response
  else
    let errors := unwrapOrDefault (Response.json fromJsonHerokuApiError api_response)
    .error (.Error api_response.status errors)

/-- Credentials from framework/auth.rs: one variant holding a bearer token. -/
inductive Credentials where
  | UserAuthToken (token : String) : Credentials
deriving DecidableEq, Repr

/-- Credentials::headers: the list of header pairs to attach. -/
def Credentials.headers : Credentials → List (String × String)
  | .UserAuthToken token => [("Authorization", "Bearer " ++ token)]

/-- A request under construction: the headers attached so far. Models
reqwest::blocking::RequestBuilder at the interface auth uses. -/
structure RequestBuilder where
  headers : List (String × String)
deriving DecidableEq, Repr

/-- RequestBuilder::header adds one header pair. -/
def RequestBuilder.header (rb : RequestBuilder) (k v : String) : RequestBuilder :=
  { headers := rb.headers ++ [(k, v)] }

/-- AuthClient::auth for RequestBuilder: fold the credential headers onto
the request. The credential is taken by shared reference in the source and
is a pure value here, so attaching cannot change it. -/
def RequestBuilder.auth (rb : RequestBuilder) (credentials : Credentials) :
    RequestBuilder :=
  credentials.headers.foldl (fun b kv => b.header kv.1 kv.2) rb

/-- Modelled from the spec: the HTTP method enum of framework/endpoint.rs
(absent from the sources); the endpoints embedded here use Post. -/
inductive Method where
  | Get : Method
  | Post : Method
  | Put : Method
  | Patch : Method
  | Delete : Method
deriving DecidableEq, Repr

/-- Attachment from endpoints/addons/post.rs. -/
structure Attachment where
  name : Option String
deriving DecidableEq, Repr

/-- AddonCreateParams from endpoints/addons/post.rs (the HashMap config is
carried as an association list). -/
structure AddonCreateParams where
  attachment : Option Attachment
  config : Option (List (String × String))
  confirm : Option String
  plan : String
  name : Option String
deriving DecidableEq, Repr

/-- AddonCreate from endpoints/addons/post.rs. -/
structure AddonCreate where
  app_id : String
  params : AddonCreateParams
deriving DecidableEq, Repr

/-- AddonCreate::new. -/
def AddonCreate.new (app_id plan : String) : AddonCreate :=
  { app_id := app_id,
    params := { attachment := none, config := none, confirm := none,
                plan := plan, name := none } }

/-- AddonCreate::attachment_name setter. -/
def AddonCreate.attachment_name (s : AddonCreate) (v : String) : AddonCreate :=
  { s with params := { s.params with attachment := some { name := some v } } }

/-- AddonCreate::config setter. -/
def AddonCreate.config (s : AddonCreate) (v : List (String × String)) : AddonCreate :=
  { s with params := { s.params with config := some v } }

/-- AddonCreate::confirm setter. -/
def AddonCreate.confirm (s : AddonCreate) (v : String) : AddonCreate :=
  { s with params := { s.params with confirm := some v } }

/-- AddonCreate::name setter. -/
def AddonCreate.name (s : AddonCreate) (v : String) : AddonCreate :=
  { s with params := { s.params with name := some v } }

/-- AddonCreate::build: a field-by-field copy of the builder state. -/
def AddonCreate.build (s : AddonCreate) : AddonCreate :=
  { app_id := s.app_id,
    params := { attachment := s.params.attachment, config := s.params.config,
                plan := s.params.plan, confirm := s.params.confirm,
                name := s.params.name } }

/-- HerokuEndpoint::method for AddonCreate. -/
def AddonCreate.method (_ : AddonCreate) : Method := .Post

/-- HerokuEndpoint::path for AddonCreate. -/
def AddonCreate.path (s : AddonCreate) : String :=
  "apps/" ++ s.app_id ++ "/addons"

/-- HerokuEndpoint::body for AddonCreate. -/
def AddonCreate.body (s : AddonCreate) : Option AddonCreateParams :=
  some s.params

/-- WebhookCreateParams from endpoints/addons/post.rs; the field named
include in the source is include_ here, include being a Lean keyword. -/
structure WebhookCreateParams where
  authorization : Option String
  include_ : List String
  level : String
  secret : Option String
  url : String
deriving DecidableEq, Repr

/-- WebhookCreate from endpoints/addons/post.rs. -/
structure WebhookCreate where
  addon_id : String
  params : WebhookCreateParams
deriving DecidableEq, Repr

/-- WebhookCreate::new. -/
def WebhookCreate.new (addon_id : String) (include_ : List String)
    (level url : String) : WebhookCreate :=
  { addon_id := addon_id,
    params := { authorization := none, include_ := include_, level := level,
                secret := none, url := url } }

/-- WebhookCreate::authorization setter. -/
def WebhookCreate.authorization (s : WebhookCreate) (v : String) : WebhookCreate :=
  { s with params := { s.params with authorization := some v } }

/-- WebhookCreate::secret setter. -/
def WebhookCreate.secret (s : WebhookCreate) (v : String) : WebhookCreate :=
  { s with params := { s.params with secret := some v } }

/-- WebhookCreate::build, field by field as written at lines 633-645 of
endpoints/addons/post.rs: authorization is the literal None there, not a
copy of the builder state. -/
def WebhookCreate.build (s : WebhookCreate) : WebhookCreate :=
  { addon_id := s.addon_id,
    params := { authorization := none, include_ := s.params.include_,
                level := s.params.level, secret := s.params.secret,
                url := s.params.url } }

/-- HerokuEndpoint::path for WebhookCreate. -/
def WebhookCreate.path (s : WebhookCreate) : String :=
  "addons/" ++ s.addon_id ++ "/webhooks"

/-- BuildpackParam from endpoints/builds/post.rs. -/
structure BuildpackParam where
  url : String
  name : String
deriving DecidableEq, Repr

/-- SourceBlobParam from endpoints/builds/post.rs. -/
structure SourceBlobParam where
  checksum : Option String
  url : String
  version : Option String
deriving DecidableEq, Repr

/-- BuildCreateParams from endpoints/builds/post.rs. -/
structure BuildCreateParams where
  buildpacks : Option (List BuildpackParam)
  source_blob : SourceBlobParam
deriving DecidableEq, Repr

/-- BuildCreate from endpoints/builds/post.rs. -/
structure BuildCreate where
  app_id : String
  params : BuildCreateParams
deriving DecidableEq, Repr

/-- BuildCreate::new. -/
def BuildCreate.new (app_id source_blob_url : String) : BuildCreate :=
  { app_id := app_id,
    params := { buildpacks := none,
                source_blob := { checksum := none, url := source_blob_url,
                                 version := none } } }

/-- BuildCreate::checksum setter. -/
def BuildCreate.checksum (s : BuildCreate) (v : String) : BuildCreate :=
  { s with params :=
      { s.params with source_blob := { s.params.source_blob with checksum := some v } } }

/-- BuildCreate::version setter. -/
def BuildCreate.version (s : BuildCreate) (v : String) : BuildCreate :=
  { s with params :=
      { s.params with source_blob := { s.params.source_blob with version := some v } } }

/-- BuildCreate::buildpack setter: assigns Some(vec![BuildpackParam{url,name}]),
a fresh one-element vector, to the buildpacks field. -/
def BuildCreate.buildpack (s : BuildCreate) (url name : String) : BuildCreate :=
  { s with params :=
      { s.params with buildpacks := some [{ url := url, name := name }] } }

/-- BuildCreate::build: a field-by-field copy of the builder state. -/
def BuildCreate.build (s : BuildCreate) : BuildCreate :=
  { app_id := s.app_id,
    params := { buildpacks := s.params.buildpacks,
                source_blob := { checksum := s.params.source_blob.checksum,
                                 url := s.params.source_blob.url,
                                 version := s.params.source_blob.version } } }

/-- One call to a BuildCreate optional-parameter setter. -/
inductive BuildOp where
  | checksum (v : String) : BuildOp
  | version (v : String) : BuildOp
  | buildpack (url name : String) : BuildOp
deriving DecidableEq, Repr

/-- Apply one setter call to a BuildCreate builder. -/
def applyBuildOp (s : BuildCreate) : BuildOp → BuildCreate
  | .checksum v => s.checksum v
  | .version v => s.version v
  | .buildpack u n => s.buildpack u n

/-- Apply a sequence of setter calls, left to right. -/
def applyBuildOps (s : BuildCreate) (ops : List BuildOp) : BuildCreate :=
  ops.foldl applyBuildOp s

/-- The buildpacks field is unset or holds exactly one element. -/
def buildpacksInv (s : BuildCreate) : Prop :=
  s.params.buildpacks = none ∨ ∃ p, s.params.buildpacks = some [p]

theorem applyBuildOp_inv (s : BuildCreate) (op : BuildOp) (h : buildpacksInv s) :
    buildpacksInv (applyBuildOp s op) := by
  cases op with
  | checksum v => exact h
  | version v => exact h
  | buildpack u n => exact Or.inr ⟨{ url := u, name := n }, rfl⟩

theorem applyBuildOps_inv (ops : List BuildOp) :
    ∀ (s : BuildCreate), buildpacksInv s → buildpacksInv (applyBuildOps s ops) := by
  induction ops with
  | nil => intro s h; exact h
  | cons op rest ih => intro s h; exact ih (applyBuildOp s op) (applyBuildOp_inv s op h)

/-- Claim C1: a response with a success status whose body deserializes as
the declared type T makes match_response return Ok of the parsed value. -/
theorem C1_success_parses_to_ok {T : Type} (fromJsonT : Json → Except String T)
    (r : Response) (v : T) (hs : isSuccess r.status = true)
    (hp : Response.json fromJsonT r = .ok v) :
    match_response fromJsonT r = .ok v := by
  simp [match_response, hs, hp]

theorem C1_success_parses_to_ok_witness :
    isSuccess 200 = true ∧
    Response.json fromJsonEmpty { status := 200, body := "\x7b\x7d" } = .ok Empty.mk ∧
    match_response fromJsonEmpty { status := 200, body := "\x7b\x7d" } = .ok Empty.mk :=
  ⟨rfl, rfl,
    C1_success_parses_to_ok fromJsonEmpty { status := 200, body := "\x7b\x7d" }
      Empty.mk rfl rfl⟩

/-- Claim C2: a response with a success status whose body fails to
deserialize as the declared type makes match_response return the
HerokuApiFailure.Invalid failure wrapping the parse error; the function is
total, so no panic is possible. -/
theorem C2_success_unparseable_invalid {T : Type} (fromJsonT : Json → Except String T)
    (r : Response) (e : String) (hs : isSuccess r.status = true)
    (hp : Response.json fromJsonT r = .error e) :
    match_response fromJsonT r = .error (.Invalid e) := by
  simp [match_response, hs, hp]

theorem C2_success_unparseable_invalid_witness :
    isSuccess 200 = true ∧
    Response.json fromJsonEmpty { status := 200, body := "not json" } =
      .error "expected value" ∧
    match_response fromJsonEmpty { status := 200, body := "not json" } =
      .error (.Invalid "expected value") :=
  ⟨rfl, rfl,
    C2_success_unparseable_invalid fromJsonEmpty { status := 200, body := "not json" }
      "expected value" rfl rfl⟩

/-- Claim C3: a response with a non-success status whose body parses as the
error envelope makes match_response return an API failure carrying exactly
the original status and the parsed envelope, for any declared success type. -/
theorem C3_failure_parsed_envelope {T : Type} (fromJsonT : Json → Except String T)
    (r : Response) (err : HerokuApiError) (hs : isSuccess r.status = false)
    (hp : Response.json fromJsonHerokuApiError r = .ok err) :
    match_response fromJsonT r = .error (.Error r.status err) := by
  simp [match_response, hs, hp, unwrapOrDefault]

theorem C3_failure_parsed_envelope_witness :
    isSuccess 404 = false ∧
    Response.json fromJsonHerokuApiError
        { status := 404, body := "\x7b\"id\":\"not_found\",\"message\":\"Not found.\"\x7d" } =
      .ok { id := "not_found", message := "Not found.", url := none } ∧
    match_response fromJsonEmpty
        { status := 404, body := "\x7b\"id\":\"not_found\",\"message\":\"Not found.\"\x7d" } =
      .error (.Error 404 { id := "not_found", message := "Not found.", url := none }) :=
  ⟨rfl, rfl,
    C3_failure_parsed_envelope fromJsonEmpty
      { status := 404, body := "\x7b\"id\":\"not_found\",\"message\":\"Not found.\"\x7d" }
      { id := "not_found", message := "Not found.", url := none } rfl rfl⟩

/-- Claim C4: a response with a non-success status whose body fails to
parse as the error envelope makes match_response return an API failure with
the original status and the default empty envelope; the secondary parse
error never reaches the caller. -/
theorem C4_failure_default_envelope {T : Type} (fromJsonT : Json → Except String T)
    (r : Response) (e : String) (hs : isSuccess r.status = false)
    (hp : Response.json fromJsonHerokuApiError r = .error e) :
    match_response fromJsonT r = .error (.Error r.status HerokuApiError.defaultError) := by
  simp [match_response, hs, hp, unwrapOrDefault]

theorem C4_failure_default_envelope_witness :
    isSuccess 500 = false ∧
    Response.json fromJsonHerokuApiError { status := 500, body := "" } =
      .error "EOF while parsing a value" ∧
    match_response fromJsonEmpty { status := 500, body := "" } =
      .error (.Error 500 HerokuApiError.defaultError) :=
  ⟨rfl, rfl,
    C4_failure_default_envelope fromJsonEmpty { status := 500, body := "" }
      "EOF while parsing a value" rfl rfl⟩

/-- Claim C5: bearer-token credentials produce exactly one header pair,
Authorization with value Bearer followed by the token, and attaching them
through auth only appends those header pairs to the request; the credential
is a pure value, so attaching does not change it. -/
theorem C5_bearer_header (token : String) (rb : RequestBuilder) :
    (Credentials.UserAuthToken token).headers =
      [("Authorization", "Bearer " ++ token)] ∧
    (Credentials.UserAuthToken token).headers.length = 1 ∧
    (rb.auth (Credentials.UserAuthToken token)).headers =
      rb.headers ++ [("Authorization", "Bearer " ++ token)] :=
  ⟨rfl, rfl, rfl⟩

/-- Claim C6 counterexample: with the empty marker as declared success
type and a success status, a completely empty body does not deserialize;
serde_json reports end of input and match_response returns Invalid, not Ok. -/
theorem C6_empty_body_not_ok :
    match_response fromJsonEmpty { status := 200, body := "" } =
      .error (.Invalid "EOF while parsing a value") := rfl

/-- Claim C6 as amended: with the empty marker as declared success type, a
success-status response deserializes when the body is an empty object or an
empty array, both giving the unique empty marker value; a completely empty
body fails to parse and yields an Invalid failure instead. -/
theorem C6_empty_marker_bodies :
    match_response fromJsonEmpty { status := 200, body := "\x7b\x7d" } = .ok Empty.mk ∧
    match_response fromJsonEmpty { status := 200, body := "[]" } = .ok Empty.mk ∧
    (∀ e : Empty, e = Empty.mk) ∧
    match_response fromJsonEmpty { status := 200, body := "" } =
      .error (.Invalid "EOF while parsing a value") :=
  ⟨rfl, rfl, fun _ => rfl, rfl⟩

/-- Claim C7: build is a field-by-field copy of the builder state. This
holds for AddonCreate, but WebhookCreate::build hardcodes None for the
authorization field, so the value set by the authorization setter is
dropped: the claim fails on the code at this input. -/
theorem C7_webhook_build_drops_authorization :
    ((WebhookCreate.new "ADDON_ID" ["api:release"] "notify"
        "https://example.com").authorization "custom-header").params.authorization =
      some "custom-header" ∧
    (((WebhookCreate.new "ADDON_ID" ["api:release"] "notify"
        "https://example.com").authorization "custom-header").build).params.authorization =
      none ∧
    (∀ s : AddonCreate, s.build = s) ∧
    (∀ s : WebhookCreate, s.build = s → s.params.authorization = none) :=
  ⟨rfl, rfl, fun _ => rfl, fun s h => by rw [← h]; rfl⟩

/-- Claim C8: the AddonCreate endpoint descriptor builds the path apps,
app id, addons with the app id substituted verbatim, and its method is
POST; in particular app id APP_ID gives apps/APP_ID/addons. -/
theorem C8_addon_create_path_method (s : AddonCreate) :
    s.path = "apps/" ++ s.app_id ++ "/addons" ∧
    s.method = Method.Post ∧
    (AddonCreate.new "APP_ID" "heroku-postgresql:dev").path = "apps/APP_ID/addons" :=
  ⟨rfl, rfl, rfl⟩

/-- Claim C9: match_raw_response returns the raw response unchanged on a
success status, and on a non-success status it returns exactly the same
typed failure, status and envelope with the default fallback, as
match_response does for any declared success type. -/
theorem C9_raw_matches_match (r : Response) :
    (isSuccess r.status = true → match_raw_response r = .ok r) ∧
    (isSuccess r.status = false →
      ∀ (T : Type) (fromJsonT : Json → Except String T),
        match_raw_response r =
          .error (.Error r.status
            (unwrapOrDefault (Response.json fromJsonHerokuApiError r))) ∧
        match_response fromJsonT r =
          .error (.Error r.status
            (unwrapOrDefault (Response.json fromJsonHerokuApiError r)))) := by
  refine ⟨fun hs => ?_, fun hs T fromJsonT => ⟨?_, ?_⟩⟩
  · simp [match_raw_response, hs]
  · simp [match_raw_response, hs]
  · simp [match_response, hs]

theorem C9_raw_matches_match_witness :
    match_raw_response { status := 204, body := "" } =
      .ok { status := 204, body := "" } ∧
    match_raw_response { status := 404, body := "oops" } =
      .error (.Error 404 HerokuApiError.defaultError) ∧
    match_response fromJsonEmpty { status := 404, body := "oops" } =
      .error (.Error 404 HerokuApiError.defaultError) :=
  ⟨(C9_raw_matches_match { status := 204, body := "" }).1 rfl,
   ((C9_raw_matches_match { status := 404, body := "oops" }).2 rfl
      Empty fromJsonEmpty).1,
   ((C9_raw_matches_match { status := 404, body := "oops" }).2 rfl
      Empty fromJsonEmpty).2⟩

/-- Claim C10: after any sequence of BuildCreate setter calls the
buildpacks field is None or a one-element vector, and each buildpack call
replaces the whole list with a singleton holding only the latest url and
name pair. -/
theorem C10_buildpacks_singleton (app url : String) (ops : List BuildOp) :
    buildpacksInv (applyBuildOps (BuildCreate.new app url) ops) ∧
    (∀ (s : BuildCreate) (u n : String),
      (s.buildpack u n).params.buildpacks = some [{ url := u, name := n }]) :=
  ⟨applyBuildOps_inv ops (BuildCreate.new app url) (Or.inl rfl),
   fun _ _ _ => rfl⟩

end HerokuRs
